import Mathlib

/-!
Verification of the knowledge-graph service control plane
(`src/app/main.py`): rate limiting (`check_rate_limit` over a
`cachetools.TTLCache`), the Turnstile verification gate
(`verify_turnstile_token`), the streaming session
(`generate_graph_stream_response`), and the task registry
(`process_openai` / `get_result`).

The embedding is per-client-key for the rate limiter: keys are
independent in the `TTLCache` (and the 10000-entry capacity is never
reached in the scenarios considered), so the state for one client is
`Option Entry`.  Wall-clock time is an explicit `Nat` parameter
standing for the cache's timer.
-/

namespace KGApp

/-- Rate-limit configuration: `RATE_LIMIT_REQUESTS` and
`RATE_LIMIT_WINDOW` from `main.py` lines 41-46. -/
structure RLConfig where
  limit : Nat
  window : Nat
deriving DecidableEq

/-- One `TTLCache` entry for a single client key: the stored count and
the absolute expiry time (`link.expires` in cachetools). -/
structure Entry where
  count : Nat
  expires : Nat
deriving DecidableEq

/-- Embeds `rate_limit_storage.get(client_ip, 0)` at time `now`:
cachetools treats an entry as live iff `expires > now`; an absent or
expired entry reads as the default 0 (`main.py` line 69). -/
def cacheGet (s : Option Entry) (now : Nat) : Nat :=
  match s with
  | none => 0
  | some e => if now < e.expires then e.count else 0

/-- Embeds `rate_limit_storage[key] = v` at time `now`:
`TTLCache.__setitem__` stores `v` and sets the entry's expiry to
`now + ttl` — on every write, whether or not the key already existed. -/
def cacheSet (now ttl v : Nat) : Option Entry :=
  some { count := v, expires := now + ttl }

/-- The `HTTPException` payloads raised by `main.py`: status code, the
`error` and `message` fields of the `detail` dict, and the optional
`retry_after` detail field and `Retry-After` header. -/
structure HTTPError where
  status_code : Nat
  error : String
  message : String
  retry_after : Option Nat
  retryAfterHeader : Option String
deriving DecidableEq

/-- The 429 rejection raised by `check_rate_limit`
(`main.py` lines 74-85). -/
def rateLimitHTTPError (cfg : RLConfig) : HTTPError where
  status_code := 429
  error := "Rate limit exceeded"
  message := "Too many requests. Limit: " ++ toString cfg.limit
      ++ " requests per " ++ toString cfg.window ++ " seconds"
  retry_after := some cfg.window
  retryAfterHeader := some (toString cfg.window)

/-- Embeds `check_rate_limit` (`main.py` lines 63-93) for one client key at
time `now`: read the current count (0 if absent/expired); if it already
reached the limit, raise the 429 without touching the store (the
increment on line 88 is after the `raise` and is not executed);
otherwise store `count + 1`, which also sets a fresh expiry. -/
def check_rate_limit (cfg : RLConfig) (s : Option Entry) (now : Nat) :
    Except HTTPError Unit × Option Entry :=
  let current := cacheGet s now
  if cfg.limit ≤ current then
    (Except.error (rateLimitHTTPError cfg), s)
  else
    (Except.ok (), cacheSet now cfg.window (current + 1))

/-- A sequence of admission checks for one client at the given times,
threading the per-key cache state; returns the list of outcomes and the
final state. -/
def runChecks (cfg : RLConfig) (s : Option Entry) :
    List Nat → List (Except HTTPError Unit) × Option Entry
  | [] => ([], s)
  | t :: ts =>
    let r := check_rate_limit cfg s t
    let rest := runChecks cfg r.2 ts
    (r.1 :: rest.1, rest.2)

/-- Relation between consecutive check times: the later check happens no
earlier, and strictly before the earlier check's refreshed expiry. -/
def stepRel (W : Nat) (a b : Nat) : Prop := a ≤ b ∧ b < a + W

lemma chain'_of_window (W : Nat) (ts : List Nat)
    (hs : List.Pairwise (· ≤ ·) ts)
    (hw : ∀ a ∈ ts, ∀ b ∈ ts, a < b + W) :
    List.Chain' (stepRel W) ts := by
  rw [List.chain'_iff_get]
  intro i hi
  refine ⟨?_, ?_⟩
  · exact List.pairwise_iff_get.mp hs ⟨i, by omega⟩ ⟨i + 1, by omega⟩ (by simp)
  · exact hw _ (ts.get_mem _ _) _ (ts.get_mem _ _)

/-- Draining a run of accepted checks starting from a live entry: as long
as consecutive checks stay within the (refreshed) window and the count
stays below the limit, every check accepts and the entry tracks the
number of checks, with expiry refreshed by the last one. -/
lemma run_from_entry (cfg : RLConfig) :
    ∀ (ts : List Nat) (c tprev : Nat),
      List.Chain' (stepRel cfg.window) (tprev :: ts) →
      c + ts.length ≤ cfg.limit →
      runChecks cfg (some ⟨c, tprev + cfg.window⟩) ts =
        (List.replicate ts.length (Except.ok ()),
         some ⟨c + ts.length, ts.getLastD tprev + cfg.window⟩)
  | [], c, tprev, _, _ => by simp [runChecks]
  | t :: ts, c, tprev, hchain, hlen => by
    rw [List.chain'_cons] at hchain
    obtain ⟨⟨_hle, hlt⟩, hchain'⟩ := hchain
    have hc : ¬ (cfg.limit ≤ c) := by
      simp only [List.length_cons] at hlen; omega
    have hchk : check_rate_limit cfg (some ⟨c, tprev + cfg.window⟩) t
        = (Except.ok (), some ⟨c + 1, t + cfg.window⟩) := by
      simp [check_rate_limit, cacheGet, cacheSet, hlt, hc]
    have ih := run_from_entry cfg ts (c + 1) t hchain'
      (by simp only [List.length_cons] at hlen; omega)
    simp only [runChecks, hchk, ih, List.length_cons, List.getLastD_cons,
      List.replicate_succ, Prod.mk.injEq, Option.some.injEq, Entry.mk.injEq]
    exact ⟨trivial, by omega, trivial⟩

/-- A run of at most `limit` in-window checks starting from an empty
counter: every check accepts, and the final entry holds the number of
checks with expiry refreshed by the last one. -/
lemma runChecks_none_cons (cfg : RLConfig) (t0 : Nat) (rest : List Nat)
    (hchain : List.Chain' (stepRel cfg.window) (t0 :: rest))
    (hlen : rest.length + 1 ≤ cfg.limit) :
    runChecks cfg none (t0 :: rest) =
      (List.replicate (rest.length + 1) (Except.ok ()),
       some ⟨rest.length + 1, rest.getLastD t0 + cfg.window⟩) := by
  have h0 : check_rate_limit cfg none t0
      = (Except.ok (), some ⟨1, t0 + cfg.window⟩) := by
    have hpos : ¬ (cfg.limit ≤ 0) := by omega
    simp [check_rate_limit, cacheGet, cacheSet, hpos]
  have ih := run_from_entry cfg rest 1 t0 hchain (by omega)
  simp only [runChecks, h0, ih, List.replicate_succ, Prod.mk.injEq,
    Option.some.injEq, Entry.mk.injEq]
  exact ⟨trivial, by omega, trivial⟩

/-- Checks compose: running on an appended list is running the first
part, then the second from the resulting state. -/
lemma runChecks_append (cfg : RLConfig) (s : Option Entry)
    (ts1 ts2 : List Nat) :
    runChecks cfg s (ts1 ++ ts2) =
      ((runChecks cfg s ts1).1
         ++ (runChecks cfg (runChecks cfg s ts1).2 ts2).1,
       (runChecks cfg (runChecks cfg s ts1).2 ts2).2) := by
  induction ts1 generalizing s with
  | nil => simp [runChecks]
  | cons t ts ih => simp [runChecks, ih]

lemma getLastD_mem_cons : ∀ (l : List Nat) (a : Nat), l.getLastD a ∈ a :: l
  | [], _ => by simp
  | b :: l, a => by
    rw [List.getLastD_cons]
    have h := getLastD_mem_cons l b
    simp only [List.mem_cons] at h ⊢
    tauto

/-- Claim C1: starting from an empty counter, any `N ≤ L` admission
checks from the same client within one window all return Accept, and a
run of `L + 1` such checks returns `L` Accepts followed by one
rejection, delivered as HTTP 429 whose body carries
`retry_after = window` and whose `Retry-After` header is the window in
seconds. -/
theorem C1_rate_limit_window (cfg : RLConfig) (ts : List Nat)
    (hsorted : List.Pairwise (· ≤ ·) ts)
    (hwin : ∀ a ∈ ts, ∀ b ∈ ts, a < b + cfg.window) :
    (ts.length ≤ cfg.limit →
      (runChecks cfg none ts).1 = List.replicate ts.length (Except.ok ())) ∧
    (ts.length = cfg.limit + 1 →
      (runChecks cfg none ts).1 =
        List.replicate cfg.limit (Except.ok ())
          ++ [Except.error (rateLimitHTTPError cfg)]) ∧
    (rateLimitHTTPError cfg).status_code = 429 ∧
    (rateLimitHTTPError cfg).retry_after = some cfg.window ∧
    (rateLimitHTTPError cfg).retryAfterHeader = some (toString cfg.window) := by
  have hchain := chain'_of_window cfg.window ts hsorted hwin
  refine ⟨?_, ?_, rfl, rfl, rfl⟩
  · intro hlen
    cases ts with
    | nil => simp [runChecks]
    | cons t0 rest =>
      have h := runChecks_none_cons cfg t0 rest hchain
        (by simpa using hlen)
      simp [h]
  · intro hlen
    by_cases hL : cfg.limit = 0
    · obtain ⟨t, rfl⟩ := List.length_eq_one.mp
        (by omega : ts.length = 1)
      simp [runChecks, check_rate_limit, cacheGet, hL]
    · have hne : ts ≠ [] := by
        intro h; rw [h] at hlen; simp at hlen
      have hsplit := List.dropLast_append_getLast hne
      have hdlen : ts.dropLast.length = cfg.limit := by
        have := ts.length_dropLast; omega
      obtain ⟨t0, rest, hdl⟩ : ∃ t0 rest, ts.dropLast = t0 :: rest := by
        cases hdl : ts.dropLast with
        | nil => rw [hdl] at hdlen; simp at hdlen; omega
        | cons a l => exact ⟨a, l, rfl⟩
      have hsub : ts.dropLast.Sublist ts := List.dropLast_sublist ts
      have hs' : List.Pairwise (· ≤ ·) ts.dropLast := hsorted.sublist hsub
      have hw' : ∀ a ∈ ts.dropLast, ∀ b ∈ ts.dropLast,
          a < b + cfg.window :=
        fun a ha b hb => hwin a (hsub.subset ha) b (hsub.subset hb)
      have hchain' := chain'_of_window cfg.window ts.dropLast hs' hw'
      rw [hdl] at hchain' hdlen
      simp only [List.length_cons] at hdlen
      have hrun1 := runChecks_none_cons cfg t0 rest hchain' (by omega)
      have htp_mem : rest.getLastD t0 ∈ ts := by
        have h1 := getLastD_mem_cons rest t0
        rw [← hdl] at h1
        exact hsub.subset h1
      have htl_mem : ts.getLast hne ∈ ts := List.getLast_mem hne
      have hlt : ts.getLast hne < rest.getLastD t0 + cfg.window :=
        hwin _ htl_mem _ htp_mem
      have hchk : check_rate_limit cfg
          (some ⟨rest.length + 1, rest.getLastD t0 + cfg.window⟩)
          (ts.getLast hne)
          = (Except.error (rateLimitHTTPError cfg),
             some ⟨rest.length + 1, rest.getLastD t0 + cfg.window⟩) := by
        have hge : cfg.limit ≤ rest.length + 1 := by omega
        have hget : cacheGet
            (some ⟨rest.length + 1, rest.getLastD t0 + cfg.window⟩)
            (ts.getLast hne) = rest.length + 1 := by
          simp only [cacheGet]
          exact if_pos hlt
        simp only [check_rate_limit, hget]
        rw [if_pos hge]
      conv_lhs => rw [← hsplit, hdl]
      rw [runChecks_append, hrun1]
      simp only [runChecks, hchk]
      rw [hdlen]

/-- Witness for C1: the spec's concrete scenario — limit 2, window 60,
three calls within 5 seconds give Accept, Accept, Reject. -/
theorem C1_rate_limit_window_witness :
    (runChecks ⟨2, 60⟩ none [0, 1, 5]).1 =
      [Except.ok (), Except.ok (),
       Except.error (rateLimitHTTPError ⟨2, 60⟩)] ∧
    (rateLimitHTTPError ⟨2, 60⟩).retry_after = some 60 := by
  have h := C1_rate_limit_window ⟨2, 60⟩ [0, 1, 5] (by decide) (by decide)
  have h2 := h.2.1 (by decide)
  exact ⟨by simpa using h2, h.2.2.2.1⟩

/-- Claim C2 counterexample: with limit 1 and window 60, a client whose
count already reached the limit is rejected but its stored count is NOT
incremented — the raise on `main.py` line 74 skips the increment on
line 88, so the state is unchanged and the post-call count is not one
greater than the pre-call count. -/
theorem C2_reject_no_increment_counterexample :
    (check_rate_limit ⟨1, 60⟩ (some ⟨1, 60⟩) 0).2 = some ⟨1, 60⟩ ∧
    ¬ (cacheGet (check_rate_limit ⟨1, 60⟩ (some ⟨1, 60⟩) 0).2 0
         = cacheGet (some ⟨1, 60⟩) 0 + 1) := by
  decide

/-- Claim C2 (amended): when the pre-call count has already reached the
limit, the check returns the 429 rejection carrying
`retry_after = window`, and the increment is NOT applied — the stored
state (hence the count) is unchanged by the rejected call. -/
theorem C2_reject_no_increment (cfg : RLConfig) (s : Option Entry)
    (now : Nat) (h : cfg.limit ≤ cacheGet s now) :
    (check_rate_limit cfg s now).1
        = Except.error (rateLimitHTTPError cfg) ∧
    (check_rate_limit cfg s now).2 = s ∧
    (rateLimitHTTPError cfg).retry_after = some cfg.window := by
  simp [check_rate_limit, rateLimitHTTPError, h]

/-- Witness for the amended C2 at a concrete input. -/
theorem C2_reject_no_increment_witness :
    (check_rate_limit ⟨1, 60⟩ (some ⟨1, 60⟩) 0).1
        = Except.error (rateLimitHTTPError ⟨1, 60⟩) ∧
    (check_rate_limit ⟨1, 60⟩ (some ⟨1, 60⟩) 0).2 = some ⟨1, 60⟩ := by
  have h := C2_reject_no_increment ⟨1, 60⟩ (some ⟨1, 60⟩) 0 (by decide)
  exact ⟨h.1, h.2.1⟩

/-- Claim C5 counterexample: limit 10, window 60, accepted checks at
t = 0 and t = 30.  The first check sets expiry 60; were the expiry fixed
by the window-starting increment, the entry would be gone at t = 70 —
but the second increment moved the expiry to 90, so at t = 70 the count
still reads 2, not 0. -/
theorem C5_expiry_moves_counterexample :
    (runChecks ⟨10, 60⟩ none [0]).2 = some ⟨1, 60⟩ ∧
    (runChecks ⟨10, 60⟩ none [0, 30]).2 = some ⟨2, 90⟩ ∧
    cacheGet (runChecks ⟨10, 60⟩ none [0, 30]).2 70 = 2 := by
  decide

/-- Claim C5 (amended): the window expiry is NOT fixed by the increment
that started the window — every accepted check (every write to the
`TTLCache`) refreshes the key's expiry to `now + window`, so the expiry
slides forward with each accepted call and the entry lapses only after a
full window with no writes. -/
theorem C5_every_increment_refreshes_expiry (cfg : RLConfig)
    (s : Option Entry) (now : Nat) (h : cacheGet s now < cfg.limit) :
    (check_rate_limit cfg s now).2
      = some ⟨cacheGet s now + 1, now + cfg.window⟩ := by
  simp [check_rate_limit, cacheSet, Nat.not_le.mpr h]

/-- Witness for the amended C5: the second in-window increment at t = 30
re-sets the expiry to 90. -/
theorem C5_every_increment_refreshes_expiry_witness :
    (check_rate_limit ⟨10, 60⟩ (some ⟨1, 60⟩) 30).2 = some ⟨2, 90⟩ := by
  have h := C5_every_increment_refreshes_expiry ⟨10, 60⟩
    (some ⟨1, 60⟩) 30 (by decide)
  simpa [cacheGet] using h

/-! ## Streaming session (`generate_graph_stream_response`) -/

/-- Embeds `Node` from `graph.py` lines 29-33. -/
structure Node where
  id : Int
  label : String
  color : String
deriving DecidableEq

/-- Embeds `Edge` from `graph.py` lines 35-39. -/
structure Edge where
  source : Int
  target : Int
  label : String
  color : String
deriving DecidableEq

/-- The payload of a streamed entity: a node or an edge
(`graph.py` line 52). -/
inductive EntityPayload
  | node (n : Node)
  | edge (e : Edge)
deriving DecidableEq

/-- Embeds `KnowledgeGraphEntity` from `graph.py` lines 48-54: a `type`
discriminator plus the node/edge payload. -/
structure KnowledgeGraphEntity where
  type : String
  entity : EntityPayload
deriving DecidableEq

/-- The metadata dict built at `main.py` lines 215-228 and sent as the
first frame: fresh session id, creation timestamp, echoed
subject/model, and the opaque hierarchy-linkage fields. -/
structure StartMetadata where
  id : String
  createdAt : Nat
  subject : String
  model : String
  message : String
  parentGraphId : Option String
  parentNodeId : Option Int
  sourceNodeLabel : Option String
  title : Option String
deriving DecidableEq

/-- Builds the start-frame metadata as `main.py` lines 215-228 does;
`id` and `createdAt` stand for `str(uuid4())` and
`int(time.time() * 1000)`. -/
def mkStartMetadata (sessionId : String) (createdAt : Nat)
    (subject model : String) (parentGraphId : Option String)
    (parentNodeId : Option Int) (sourceNodeLabel : Option String)
    (title : Option String) : StartMetadata where
  id := sessionId
  createdAt := createdAt
  subject := subject
  model := model
  message := "Streaming knowledge graph entities"
  parentGraphId := parentGraphId
  parentNodeId := parentNodeId
  sourceNodeLabel := sourceNodeLabel
  title := title

/-- One frame of the newline-delimited stream. -/
inductive StreamFrame
  | start (meta : StartMetadata)
  | entity (e : KnowledgeGraphEntity)
  | complete
  | error
deriving DecidableEq

/-- How the adapter's lazy sequence ends after its yielded items: the
`async for` finishes normally, or a pull raises (`ValidationError` or
any other `Exception`, both caught at `main.py` lines 248-253) with the
given diagnostic message. -/
inductive Terminal
  | ok
  | raise (msg : String)
deriving DecidableEq

/-- The wire text of the `complete` terminal frame:
`json.dumps({"result": "graph complete", "status": "complete"}) + "\n"`
(`main.py` lines 244-247). -/
def completeLine : String :=
  "\x7b\"result\": \"graph complete\", \"status\": \"complete\"\x7d\n"

/-- The wire text of the `error` terminal frame:
`json.dumps({"result": "error", "status": "error"}) + "\n"`
(`main.py` lines 250 and 253) — a generic marker carrying none of the
caught exception's detail. -/
def errorLine : String :=
  "\x7b\"result\": \"error\", \"status\": \"error\"\x7d\n"

/-- Wire text of the terminal frames, as serialized by
`main.py` lines 244-253. -/
def terminalLine : StreamFrame → Option String
  | .complete => some completeLine
  | .error => some errorLine
  | _ => none

/-- The drain loop of `generate_graph_stream_response`
(`main.py` lines 232-253): pull items in order; a `None` item is
skipped (`continue`, line 238-239); each entity is emitted as one
frame (line 241); when the sequence ends normally emit the `complete`
frame; if a pull raises, emit the generic `error` frame instead and
stop. -/
def drainFrames :
    List (Option KnowledgeGraphEntity) → Terminal → List StreamFrame
  | [], .ok => [.complete]
  | [], .raise _ => [.error]
  | none :: rest, t => drainFrames rest t
  | some e :: rest, t => .entity e :: drainFrames rest t

/-- Embeds `generate_graph_stream_response` (`main.py` lines 205-253) at the
frame level: the start frame is yielded first (line 229), before the
adapter's lazy generator is consumed, then the drain loop runs.  The
adapter's behaviour is given by its yielded items (`none` = a value the
orchestrator cannot use) and how the sequence terminates. -/
def generate_graph_stream_response (meta : StartMetadata)
    (items : List (Option KnowledgeGraphEntity)) (t : Terminal) :
    List StreamFrame :=
  .start meta :: drainFrames items t

/-- Terminal frame chosen by the drain loop for each way the adapter's
sequence can end. -/
def terminalFrame : Terminal → StreamFrame
  | .ok => .complete
  | .raise _ => .error

lemma drainFrames_map_some (es : List KnowledgeGraphEntity)
    (t : Terminal) :
    drainFrames (es.map some) t
      = es.map StreamFrame.entity ++ [terminalFrame t] := by
  induction es with
  | nil => cases t <;> simp [drainFrames, terminalFrame]
  | cons e es ih => simp [drainFrames, ih]

/-- Claim C3: for a successful adapter run producing entities
`e1..en`, the session emits exactly one Start frame first — and the
Start frame is first for every adapter behaviour whatsoever, since it
is emitted before the adapter is consumed — then one Entity frame per
produced item in produced order, then exactly one Complete frame, and
nothing after it. -/
theorem C3_stream_success_frames (meta : StartMetadata)
    (es : List KnowledgeGraphEntity) :
    generate_graph_stream_response meta (es.map some) .ok
      = .start meta :: es.map StreamFrame.entity ++ [.complete] ∧
    ∀ (items : List (Option KnowledgeGraphEntity)) (t : Terminal),
      (generate_graph_stream_response meta items t).head?
        = some (.start meta) := by
  constructor
  · simp [generate_graph_stream_response, drainFrames_map_some,
      terminalFrame]
  · intro items t
    simp [generate_graph_stream_response]

/-- Claim C4: for an adapter run that raises after producing `k`
entities (including `k = 0`), the session emits Start, exactly the `k`
Entity frames, then exactly one Error frame, and nothing after it; the
emitted frames do not depend on the exception's message, and the error
frame's caller-visible wire text is the generic
`{"result": "error", "status": "error"}` marker. -/
theorem C4_stream_error_frames (meta : StartMetadata)
    (es : List KnowledgeGraphEntity) (msg msg2 : String) :
    generate_graph_stream_response meta (es.map some) (.raise msg)
      = .start meta :: es.map StreamFrame.entity ++ [.error] ∧
    (∀ items, generate_graph_stream_response meta items (.raise msg)
      = generate_graph_stream_response meta items (.raise msg2)) ∧
    terminalLine .error
      = some "\x7b\"result\": \"error\", \"status\": \"error\"\x7d\n" := by
  refine ⟨?_, ?_, rfl⟩
  · simp [generate_graph_stream_response, drainFrames_map_some,
      terminalFrame]
  · intro items
    induction items with
    | nil => rfl
    | cons o rest ih =>
      cases o <;>
        simp_all [generate_graph_stream_response, drainFrames]

/-- Claim C9: an adapter-yielded item the orchestrator cannot classify
(the `None` case skipped at `main.py` lines 238-239) produces no frame
and draining continues with the remaining items: the stream is exactly
the stream of the same run without that item. -/
theorem C9_unparseable_item_skipped (meta : StartMetadata)
    (pre post : List (Option KnowledgeGraphEntity)) (t : Terminal) :
    generate_graph_stream_response meta (pre ++ none :: post) t
      = generate_graph_stream_response meta (pre ++ post) t := by
  simp only [generate_graph_stream_response, List.cons.injEq, true_and]
  induction pre with
  | nil => simp [drainFrames]
  | cons o rest ih =>
    cases o <;> simp_all [drainFrames]

/-! ## Verification gate (`verify_turnstile_token`) and the streaming
endpoint's pre-flight (`stream_generate_knowledge_graph`) -/

/-- Python truthiness of an optional string (`if not TURNSTILE_SECRET_KEY`,
`if request.turnstile_token`): `None` and the empty string are falsy. -/
def pyTruthy (s : Option String) : Bool :=
  match s with
  | none => false
  | some x => !(x == "")

/-- Everything the one outbound siteverify call can come back with:
a provider reply with its `success` flag and `error-codes`, or any
transport failure / timeout / JSON-decoding exception. -/
inductive ProviderOutcome
  | response (success : Bool) (errorCodes : List String)
  | exception (msg : String)
deriving DecidableEq

/-- Embeds `verify_turnstile_token` (`main.py` lines 96-130).  Returns the
boolean verdict together with whether the outbound provider call was
attempted.  With no secret configured it returns true immediately (no
call); otherwise the verdict is true exactly when the provider reports
success, and every exception is caught and collapsed to false — the
function never raises. -/
def verify_turnstile_token (secret : Option String)
    (_token : Option String) (outcome : ProviderOutcome) : Bool × Bool :=
  if pyTruthy secret then
    match outcome with
    | .response true _ => (true, true)
    | .response false _ => (false, true)
    | .exception _ => (false, true)
  else
    (true, false)

/-- Claim C7: the gate always returns true when no provider secret is
configured, with no outbound call made; when configured, it returns
true exactly when the provider reports success (transport failures,
timeouts and provider-reported failures all yield false), and — being a
total function into `Bool` in this embedding, mirroring the
catch-all `except` at `main.py` lines 128-130 — it never throws past
its boundary. -/
theorem C7_verification_gate (secret token : Option String)
    (outcome : ProviderOutcome) :
    ((verify_turnstile_token secret token outcome).1 = true ↔
      (pyTruthy secret = false ∨
        ∃ codes, outcome = .response true codes)) ∧
    ((verify_turnstile_token secret token outcome).2 = true ↔
      pyTruthy secret = true) := by
  by_cases h : pyTruthy secret
  · cases outcome with
    | response success codes =>
      cases success <;> simp [verify_turnstile_token, h]
    | exception msg => simp [verify_turnstile_token, h]
  · simp [verify_turnstile_token, h]

/-- The 400 rejection raised when verification fails
(`main.py` lines 311-319). -/
def invalidVerificationError : HTTPError where
  status_code := 400
  error := "Invalid security verification"
  message := "Security verification failed. Please try again."
  retry_after := none
  retryAfterHeader := none

/-- The 400 rejection raised when Turnstile is configured but the
request carries no token (`main.py` lines 320-328). -/
def verificationRequiredError : HTTPError where
  status_code := 400
  error := "Security verification required"
  message := "Security verification token is required."
  retry_after := none
  retryAfterHeader := none

/-- Outcome of the streaming endpoint's pre-flight: the HTTP response
(an error, or the opened `StreamingResponse` abstracted to `()`), plus
whether `verify_turnstile_token` was invoked and whether the streaming
generator was handed to the response (generation work begun). -/
structure StreamOutcome where
  response : Except HTTPError Unit
  gateInvoked : Bool
  generationStarted : Bool

/-- The token/verification pre-flight of `stream_generate_knowledge_graph`
(`main.py` lines 293-341), after admission control has passed: a truthy
token is verified through the gate (400 on failure); with no truthy
token, a configured secret means an immediate 400 without touching the
gate; otherwise the streaming response is returned. -/
def stream_generate_knowledge_graph (secret token : Option String)
    (outcome : ProviderOutcome) : StreamOutcome :=
  if pyTruthy token then
    if (verify_turnstile_token secret token outcome).1 then
      { response := Except.ok (), gateInvoked := true,
        generationStarted := true }
    else
      { response := Except.error invalidVerificationError,
        gateInvoked := true, generationStarted := false }
  else if pyTruthy secret then
    { response := Except.error verificationRequiredError,
      gateInvoked := false, generationStarted := false }
  else
    { response := Except.ok (), gateInvoked := false,
      generationStarted := true }

/-- Claim C8: when a verification provider is configured but the
request carries no (truthy) token, the streaming endpoint rejects the
request with the HTTP 400 request-shape error, without invoking the
verification gate and before any generation work begins. -/
theorem C8_missing_token_rejected_before_gate
    (secret token : Option String) (outcome : ProviderOutcome)
    (hsec : pyTruthy secret = true) (htok : pyTruthy token = false) :
    stream_generate_knowledge_graph secret token outcome =
      { response := Except.error verificationRequiredError,
        gateInvoked := false, generationStarted := false } ∧
    verificationRequiredError.status_code = 400 := by
  simp [stream_generate_knowledge_graph, verificationRequiredError,
    hsec, htok]

/-- Witness for C8: secret configured, token absent. -/
theorem C8_missing_token_rejected_before_gate_witness :
    stream_generate_knowledge_graph (some "secret-key") none
        (.response true []) =
      { response := Except.error verificationRequiredError,
        gateInvoked := false, generationStarted := false } := by
  have h := C8_missing_token_rejected_before_gate (some "secret-key")
    none (.response true []) (by decide) (by decide)
  exact h.1

/-! ## Task registry (`results`, `process_openai`, `get_result`) -/

/-- The pending marker returned by `get_result` for any task id with no
recorded result (`main.py` line 385). -/
def processingMarker : String := "Processing..."

/-- How a background generation job (`agenerate_graph`) can end:
a result value (opaque here), or an exception with a message. -/
inductive JobOutcome
  | success (v : String)
  | failure (msg : String)
deriving DecidableEq

/-- Embeds `process_openai` (`main.py` lines 190-192): await the generation and
store its result under the task id.  There is no try/except: on success
the result is recorded (`results[task_id] = response`); on failure the
exception propagates out of the background task (first component
`true`) and the registry is left untouched.  The registry is an
association list read through `lookup`, matching dict get/set for the
keys involved. -/
def process_openai (results : List (String × String)) (taskId : String) :
    JobOutcome → Bool × List (String × String)
  | .success v => (false, (taskId, v) :: results)
  | .failure _ => (true, results)

/-- Embeds `get_result` (`main.py` lines 383-385):
`results.get(task_id, "Processing...")`. -/
def get_result (results : List (String × String)) (taskId : String) :
    String :=
  (results.lookup taskId).getD processingMarker

/-- Embeds `start_generate_graph` (`main.py` lines 371-380): allocate a task
id, schedule the background job, and return the id immediately — the
registry itself is not written by submission, only by job completion. -/
def start_generate_graph (results : List (String × String))
    (taskId : String) : String × List (String × String) :=
  (taskId, results)

/-- Claim C6 counterexample: a background job that fails records
nothing — `process_openai` propagates the exception (first component
`true`) and leaves the registry unchanged, so polling the task id
afterwards still returns the pending marker, not a recorded terminal
failure state. -/
theorem C6_failure_not_recorded_counterexample :
    process_openai [] "task-1" (.failure "boom") = (true, []) ∧
    get_result (process_openai [] "task-1" (.failure "boom")).2 "task-1"
      = processingMarker := by
  constructor
  · rfl
  · rfl

/-- Claim C6 (amended): a background-job failure is NOT recorded in the
task registry as a terminal state — the exception propagates out of
`process_openai`, the registry is unchanged, and a poll of a task id
with no recorded result keeps returning the pending marker
`"Processing..."`. -/
theorem C6_failure_not_recorded (results : List (String × String))
    (taskId msg : String) (h : results.lookup taskId = none) :
    (process_openai results taskId (.failure msg)).1 = true ∧
    (process_openai results taskId (.failure msg)).2 = results ∧
    get_result (process_openai results taskId (.failure msg)).2 taskId
      = processingMarker := by
  refine ⟨rfl, rfl, ?_⟩
  simp [process_openai, get_result, h]

/-- Witness for the amended C6 at a concrete input. -/
theorem C6_failure_not_recorded_witness :
    (process_openai [] "task-1" (.failure "boom")).2 = [] ∧
    get_result (process_openai [] "task-1" (.failure "boom")).2 "task-1"
      = processingMarker := by
  have h := C6_failure_not_recorded [] "task-1" "boom" rfl
  exact ⟨h.2.1, h.2.2⟩

/-- Claim C10: polling a task id that was never issued returns exactly
the same value as polling a submitted-but-still-pending id — both read
as the `"Processing..."` marker, because submission writes nothing to
the registry and a pending job has not yet written its result, so the
polling interface cannot distinguish the two. -/
theorem C10_unknown_indistinguishable_from_pending
    (results : List (String × String)) (unknownId pendingId : String)
    (h1 : results.lookup unknownId = none)
    (h2 : results.lookup pendingId = none) :
    get_result results unknownId = processingMarker ∧
    get_result results unknownId = get_result results pendingId ∧
    ∀ freshId, (start_generate_graph results freshId).2 = results := by
  refine ⟨?_, ?_, fun _ => rfl⟩
  · simp [get_result, h1]
  · simp [get_result, h1, h2]

/-- Witness for C10 at a concrete registry. -/
theorem C10_unknown_indistinguishable_from_pending_witness :
    get_result [("done-task", "graph-json")] "never-issued"
      = processingMarker ∧
    get_result [("done-task", "graph-json")] "never-issued"
      = get_result [("done-task", "graph-json")] "still-pending" := by
  have h := C10_unknown_indistinguishable_from_pending
    [("done-task", "graph-json")] "never-issued" "still-pending"
    (by decide) (by decide)
  exact ⟨h.1, h.2.1⟩

end KGApp
